import Mathlib

/-!
Verification of the two line-filtering scripts of the worklink_v2
repository: `src/clean_summary.py` (Variant A, namespace `CleanSummary`)
and `src/scripts/deprecated/remove_bracket_lines.py` (Variant B,
namespace `RemoveBracketLines`).

A line is modelled as a `List Char`, matching one element of Python's
`f.readlines()` (a sequence of Unicode code points, line terminator
included when present).  The filtering loops of the two scripts are
embedded as structural recursions producing the cleaned line list and
the removal counters; the file-system and printing parts of the scripts
are outside the model, which takes the line sequence directly.
-/

namespace Worklink

/-- A line: a sequence of Unicode code points, as one element of
Python's `readlines()` result. -/
abbrev Line := List Char

/-- Python's `str` whitespace set, used by `str.strip()` / `str.lstrip()`
with no argument: code points U+0009..U+000D, U+001C..U+001F, U+0020,
U+0085, U+00A0, U+1680, U+2000..U+200A, U+2028, U+2029, U+202F, U+205F
and U+3000. -/
def isPySpace (c : Char) : Bool :=
  let n := c.toNat
  (9 ≤ n && n ≤ 13) || (28 ≤ n && n ≤ 31) || (n == 32) || (n == 0x85) ||
  (n == 0xA0) || (n == 0x1680) || (0x2000 ≤ n && n ≤ 0x200A) ||
  (n == 0x2028) || (n == 0x2029) || (n == 0x202F) || (n == 0x205F) ||
  (n == 0x3000)

/-- Python `line.lstrip()`: remove leading whitespace. -/
def pyLstrip (s : Line) : Line := s.dropWhile isPySpace

/-- Python `line.strip()`: remove leading and trailing whitespace. -/
def pyStrip (s : Line) : Line :=
  ((s.dropWhile isPySpace).reverse.dropWhile isPySpace).reverse

/-- Python `s.startswith(pre)`. -/
def pyStartswith (pre s : Line) : Bool := pre.isPrefixOf s

/-- The literal `'Bash'` of `src/clean_summary.py`, line 39. -/
def bashTok : Line := "Bash".toList

/-- The literal `'⎿'` of `src/scripts/deprecated/remove_bracket_lines.py`,
line 31. -/
def glyphTok : Line := "⎿".toList

namespace CleanSummary

/-- The filtering loop of `clean_summary_file` in `src/clean_summary.py`
(lines 28-43): for each line, if `line.strip() == ''` count it as an
empty removal; otherwise if `line.lstrip().startswith('Bash')` count it
as a Bash removal; otherwise keep the line.  Returns
`(cleaned_lines, empty_removed, bash_removed)`. -/
def filterLoop : List Line → List Line × Nat × Nat
  | [] => ([], 0, 0)
  | line :: rest =>
    let r := filterLoop rest
    if pyStrip line == ([] : Line) then
      (r.1, r.2.1 + 1, r.2.2)
    else if pyStartswith bashTok (pyLstrip line) then
      (r.1, r.2.1, r.2.2 + 1)
    else
      (line :: r.1, r.2.1, r.2.2)

/-- The counts and output of one run of `clean_summary_file`
(`src/clean_summary.py`, lines 25-54), with the file I/O abstracted to
the line sequence. -/
structure Result where
  cleaned_lines : List Line
  original_count : Nat
  empty_removed : Nat
  bash_removed : Nat
deriving DecidableEq

/-- `clean_summary_file` of `src/clean_summary.py`: record the original
line count, run the filtering loop, and report its output and counters. -/
def clean_summary_file (lines : List Line) : Result :=
  let r := filterLoop lines
  { cleaned_lines := r.1
    original_count := lines.length
    empty_removed := r.2.1
    bash_removed := r.2.2 }

end CleanSummary

namespace RemoveBracketLines

/-- The filtering loop of `clean_summary_file` in
`src/scripts/deprecated/remove_bracket_lines.py` (lines 29-35): for each
line, if `line.lstrip().startswith('⎿')` count it as removed; otherwise
keep it.  Returns `(cleaned_lines, removed_count)`. -/
def filterLoop : List Line → List Line × Nat
  | [] => ([], 0)
  | line :: rest =>
    let r := filterLoop rest
    if pyStartswith glyphTok (pyLstrip line) then
      (r.1, r.2 + 1)
    else
      (line :: r.1, r.2)

/-- The counts and output of one run of `clean_summary_file`
(`src/scripts/deprecated/remove_bracket_lines.py`, lines 23-45), with
the file I/O abstracted to the line sequence. -/
structure Result where
  cleaned_lines : List Line
  original_count : Nat
  removed_count : Nat
deriving DecidableEq

/-- `clean_summary_file` of
`src/scripts/deprecated/remove_bracket_lines.py`: record the original
line count, run the filtering loop, and report its output and counter. -/
def clean_summary_file (lines : List Line) : Result :=
  let r := filterLoop lines
  { cleaned_lines := r.1
    original_count := lines.length
    removed_count := r.2 }

end RemoveBracketLines

/-- Modelled from the spec (section 4.1, Variant A): the removal
predicate of `src/clean_summary.py` as the spec states it — true iff
the line strips to empty or its leading-whitespace-stripped remainder
begins with the token `Bash`. -/
def specPredA (line : Line) : Bool :=
  (pyStrip line == ([] : Line)) || pyStartswith bashTok (pyLstrip line)

/-- Modelled from the spec (section 4.1, Variant B): the removal
predicate of `src/scripts/deprecated/remove_bracket_lines.py` as the
spec states it — true iff the leading-whitespace-stripped remainder
begins with the glyph `⎿`. -/
def specPredB (line : Line) : Bool :=
  pyStartswith glyphTok (pyLstrip line)

/-- The blank-line test of Variant A, `line.strip() == ''`. -/
def isBlank (line : Line) : Bool := pyStrip line == ([] : Line)

lemma filterLoopA_eq (ls : List Line) :
    CleanSummary.filterLoop ls =
      (ls.filter (fun l => !specPredA l),
       ls.countP isBlank,
       ls.countP (fun l => !isBlank l && pyStartswith bashTok (pyLstrip l))) := by
  induction ls with
  | nil => rfl
  | cons l rest ih =>
    by_cases hb : pyStrip l = ([] : Line)
    · simp [CleanSummary.filterLoop, ih, specPredA, isBlank, hb,
        List.filter_cons, List.countP_cons]
    · by_cases hp : pyStartswith bashTok (pyLstrip l) = true
      · simp [CleanSummary.filterLoop, ih, specPredA, isBlank, hb, hp,
          List.filter_cons, List.countP_cons]
      · simp [CleanSummary.filterLoop, ih, specPredA, isBlank, hb, hp,
          List.filter_cons, List.countP_cons]

lemma filterLoopB_eq (ls : List Line) :
    RemoveBracketLines.filterLoop ls =
      (ls.filter (fun l => !specPredB l), ls.countP specPredB) := by
  induction ls with
  | nil => rfl
  | cons l rest ih =>
    by_cases hp : pyStartswith glyphTok (pyLstrip l) = true
    · simp [RemoveBracketLines.filterLoop, ih, specPredB, hp,
        List.filter_cons, List.countP_cons]
    · simp [RemoveBracketLines.filterLoop, ih, specPredB, hp,
        List.filter_cons, List.countP_cons]

lemma length_filter_not_add_countP (p : Line → Bool) (ls : List Line) :
    (ls.filter (fun l => !p l)).length + ls.countP p = ls.length := by
  induction ls with
  | nil => rfl
  | cons l rest ih =>
    by_cases hp : p l = true <;>
      simp [List.filter_cons, List.countP_cons, hp] <;> omega

lemma countP_split (p q : Line → Bool) (ls : List Line) :
    ls.countP p + ls.countP (fun l => !p l && q l) =
      ls.countP (fun l => p l || q l) := by
  induction ls with
  | nil => rfl
  | cons l rest ih =>
    by_cases hp : p l = true
    · simp [List.countP_cons, hp]; omega
    · by_cases hq : q l = true <;>
        simp [List.countP_cons, hp, hq] <;> omega

lemma countP_filter_not (p : Line → Bool) (ls : List Line) :
    (ls.filter (fun l => !p l)).countP p = 0 := by
  induction ls with
  | nil => rfl
  | cons l rest ih =>
    by_cases hp : p l = true <;> simp [List.filter_cons, List.countP_cons, hp, ih]

lemma countP_filter_not_of_imp (p q : Line → Bool)
    (h : ∀ l, q l = true → p l = true) (ls : List Line) :
    (ls.filter (fun l => !p l)).countP q = 0 := by
  induction ls with
  | nil => rfl
  | cons l rest ih =>
    by_cases hp : p l = true
    · simp [List.filter_cons, hp, ih]
    · have hq : q l = false := by
        cases hql : q l with
        | false => rfl
        | true => exact absurd (h l hql) hp
      simp [List.filter_cons, List.countP_cons, hp, hq, ih]

lemma dropWhile_append_all_space (w l : Line) (hw : w.all isPySpace = true) :
    (w ++ l).dropWhile isPySpace = l.dropWhile isPySpace := by
  induction w with
  | nil => rfl
  | cons a w ih =>
    simp only [List.all_cons, Bool.and_eq_true] at hw
    simp [List.dropWhile_cons, hw.1, ih hw.2]

lemma filter_not_idem (p : Line → Bool) (ls : List Line) :
    (ls.filter (fun l => !p l)).filter (fun l => !p l) =
      ls.filter (fun l => !p l) := by
  induction ls with
  | nil => rfl
  | cons l rest ih =>
    by_cases hp : p l = true <;> simp [List.filter_cons, hp, ih]

/-- C1: for every input line sequence and both variants, the reported
counts satisfy `final_count + removed_count = original_count`, where
for Variant A the removed count is the sum of the empty-line and
Bash-line counters. -/
theorem counts_balance (lines : List Line) :
    (CleanSummary.clean_summary_file lines).cleaned_lines.length
        + ((CleanSummary.clean_summary_file lines).empty_removed
            + (CleanSummary.clean_summary_file lines).bash_removed)
      = (CleanSummary.clean_summary_file lines).original_count
    ∧ (RemoveBracketLines.clean_summary_file lines).cleaned_lines.length
        + (RemoveBracketLines.clean_summary_file lines).removed_count
      = (RemoveBracketLines.clean_summary_file lines).original_count := by
  constructor
  · simp only [CleanSummary.clean_summary_file, filterLoopA_eq]
    have h1 := countP_split isBlank
      (fun l => pyStartswith bashTok (pyLstrip l)) lines
    have h2 := length_filter_not_add_countP specPredA lines
    have h3 : lines.countP
        (fun l => isBlank l || pyStartswith bashTok (pyLstrip l))
        = lines.countP specPredA := rfl
    omega
  · simp only [RemoveBracketLines.clean_summary_file, filterLoopB_eq]
    have h2 := length_filter_not_add_countP specPredB lines
    omega

/-- C2: for every input line sequence and both variants, the output is
exactly the subsequence of input lines on which the removal predicate
is false — `List.filter` of the negated predicate, which keeps each
surviving line unmodified and in relative order and adds nothing. -/
theorem output_is_filter (lines : List Line) :
    (CleanSummary.clean_summary_file lines).cleaned_lines
      = lines.filter (fun l => !specPredA l)
    ∧ (RemoveBracketLines.clean_summary_file lines).cleaned_lines
      = lines.filter (fun l => !specPredB l) := by
  constructor
  · simp only [CleanSummary.clean_summary_file, filterLoopA_eq]
  · simp only [RemoveBracketLines.clean_summary_file, filterLoopB_eq]

/-- C3: for every input line sequence and both variants, a second run
on the first run's output removes nothing: every removal counter of the
second run is zero and its output equals its input. -/
theorem second_pass_idempotent (lines : List Line) :
    (CleanSummary.clean_summary_file
        ((CleanSummary.clean_summary_file lines).cleaned_lines)).cleaned_lines
      = (CleanSummary.clean_summary_file lines).cleaned_lines
    ∧ (CleanSummary.clean_summary_file
        ((CleanSummary.clean_summary_file lines).cleaned_lines)).empty_removed = 0
    ∧ (CleanSummary.clean_summary_file
        ((CleanSummary.clean_summary_file lines).cleaned_lines)).bash_removed = 0
    ∧ (RemoveBracketLines.clean_summary_file
        ((RemoveBracketLines.clean_summary_file lines).cleaned_lines)).cleaned_lines
      = (RemoveBracketLines.clean_summary_file lines).cleaned_lines
    ∧ (RemoveBracketLines.clean_summary_file
        ((RemoveBracketLines.clean_summary_file lines).cleaned_lines)).removed_count
      = 0 := by
  refine ⟨?_, ?_, ?_, ?_, ?_⟩
  · simp only [CleanSummary.clean_summary_file, filterLoopA_eq]
    exact filter_not_idem specPredA lines
  · simp only [CleanSummary.clean_summary_file, filterLoopA_eq]
    exact countP_filter_not_of_imp specPredA isBlank
      (fun l hl => by simp [specPredA, isBlank] at hl ⊢; simp [hl]) lines
  · simp only [CleanSummary.clean_summary_file, filterLoopA_eq]
    exact countP_filter_not_of_imp specPredA
      (fun l => !isBlank l && pyStartswith bashTok (pyLstrip l))
      (fun l hl => by
        simp only [Bool.and_eq_true] at hl
        simp [specPredA, hl.2]) lines
  · simp only [RemoveBracketLines.clean_summary_file, filterLoopB_eq]
    exact filter_not_idem specPredB lines
  · simp only [RemoveBracketLines.clean_summary_file, filterLoopB_eq]
    exact countP_filter_not specPredB lines

/-- C4: Variant A removes a line iff it strips to empty or its
leading-whitespace-stripped remainder starts with the case-sensitive
token `Bash`; blank lines are counted under the empty counter, and
non-blank Bash-prefixed lines under the Bash counter, each removal
under exactly one reason; the line `"xBash\n"` is not removed. -/
theorem variantA_predicate :
    (∀ lines : List Line,
        (CleanSummary.clean_summary_file lines).cleaned_lines
          = lines.filter (fun l => !specPredA l)
        ∧ (CleanSummary.clean_summary_file lines).empty_removed
          = lines.countP isBlank
        ∧ (CleanSummary.clean_summary_file lines).bash_removed
          = lines.countP (fun l => !isBlank l && pyStartswith bashTok (pyLstrip l)))
    ∧ specPredA "xBash\n".toList = false := by
  refine ⟨fun lines => ?_, by decide⟩
  simp only [CleanSummary.clean_summary_file, filterLoopA_eq]
  trivial

/-- C5: Variant B removes a line iff its leading-whitespace-stripped
remainder starts with the glyph `⎿`, its removal counter counts exactly
those lines, and no other line — in particular no blank or
whitespace-only line — is removed. -/
theorem variantB_predicate :
    (∀ lines : List Line,
        (RemoveBracketLines.clean_summary_file lines).cleaned_lines
          = lines.filter (fun l => !specPredB l)
        ∧ (RemoveBracketLines.clean_summary_file lines).removed_count
          = lines.countP specPredB)
    ∧ (∀ l : Line, l.all isPySpace = true → specPredB l = false) := by
  constructor
  · intro lines
    simp only [RemoveBracketLines.clean_summary_file, filterLoopB_eq]
    trivial
  · intro l hl
    have h : pyLstrip l = [] := by
      have := dropWhile_append_all_space l [] hl
      simpa [pyLstrip] using this
    simp [specPredB, h, pyStartswith, glyphTok]

/-- C5 witness: the whitespace-only line `" \n"` is not removed by
Variant B. -/
theorem variantB_predicate_witness : specPredB " \n".toList = false :=
  variantB_predicate.2 " \n".toList (by decide)

/-- C6: on the concrete input
`["Bash ls\n", "\n", "   \n", "ok\n", "  Bash echo hi\n"]`, Variant A
outputs `["ok\n"]` with original count 5, two empty-line removals, two
Bash-line removals, and final count 1. -/
theorem variantA_example :
    CleanSummary.clean_summary_file
        ["Bash ls\n".toList, "\n".toList, "   \n".toList,
         "ok\n".toList, "  Bash echo hi\n".toList]
      = { cleaned_lines := ["ok\n".toList], original_count := 5,
          empty_removed := 2, bash_removed := 2 }
    ∧ (CleanSummary.clean_summary_file
        ["Bash ls\n".toList, "\n".toList, "   \n".toList,
         "ok\n".toList, "  Bash echo hi\n".toList]).cleaned_lines.length = 1 := by
  decide

/-- C7: on the concrete input
`["⎿ result\n", "normal line\n", "  ⎿ indented result\n"]`, Variant B
outputs `["normal line\n"]` with original count 3, removed count 2 and
final count 1. -/
theorem variantB_example :
    RemoveBracketLines.clean_summary_file
        ["⎿ result\n".toList, "normal line\n".toList,
         "  ⎿ indented result\n".toList]
      = { cleaned_lines := ["normal line\n".toList], original_count := 3,
          removed_count := 2 }
    ∧ (RemoveBracketLines.clean_summary_file
        ["⎿ result\n".toList, "normal line\n".toList,
         "  ⎿ indented result\n".toList]).cleaned_lines.length = 1 := by
  decide

/-- C8: on the empty input line sequence, both variants yield an empty
output and all counts zero. -/
theorem empty_input :
    CleanSummary.clean_summary_file []
      = { cleaned_lines := [], original_count := 0,
          empty_removed := 0, bash_removed := 0 }
    ∧ RemoveBracketLines.clean_summary_file []
      = { cleaned_lines := [], original_count := 0, removed_count := 0 } :=
  ⟨rfl, rfl⟩

/-- C9: both variants are deterministic pure functions of the input
line sequence — equal inputs give equal outputs and counts. -/
theorem deterministic (xs ys : List Line) (h : xs = ys) :
    CleanSummary.clean_summary_file xs = CleanSummary.clean_summary_file ys
    ∧ RemoveBracketLines.clean_summary_file xs
      = RemoveBracketLines.clean_summary_file ys := by
  subst h
  exact ⟨rfl, rfl⟩

/-- C9 witness: determinism at the one-line input `["ok\n"]`. -/
theorem deterministic_witness :
    CleanSummary.clean_summary_file ["ok\n".toList]
      = CleanSummary.clean_summary_file ["ok\n".toList]
    ∧ RemoveBracketLines.clean_summary_file ["ok\n".toList]
      = RemoveBracketLines.clean_summary_file ["ok\n".toList] :=
  deterministic ["ok\n".toList] ["ok\n".toList] rfl

/-- C10: a final line that is exactly the marker token, possibly
preceded by whitespace, with no trailing content and no terminator, is
removed: `"Bash"` by Variant A and `"⎿"` by Variant B. -/
theorem bare_marker_removed (w : Line) (hw : w.all isPySpace = true) :
    (CleanSummary.clean_summary_file [w ++ bashTok]).cleaned_lines = []
    ∧ (RemoveBracketLines.clean_summary_file [w ++ glyphTok]).cleaned_lines
      = [] := by
  have hA : pyLstrip (w ++ bashTok) = bashTok := by
    have := dropWhile_append_all_space w bashTok hw
    simpa [pyLstrip] using this
  have hB : pyLstrip (w ++ glyphTok) = glyphTok := by
    have := dropWhile_append_all_space w glyphTok hw
    simpa [pyLstrip] using this
  have hS : pyStrip (w ++ bashTok) = bashTok := by
    simp only [pyStrip]
    rw [dropWhile_append_all_space w bashTok hw]
    decide
  have h1 : ¬(bashTok = ([] : Line)) := by decide
  have h2 : pyStartswith bashTok bashTok = true := by decide
  have h3 : pyStartswith glyphTok glyphTok = true := by decide
  constructor
  · simp [CleanSummary.clean_summary_file, CleanSummary.filterLoop,
      hA, hS, h1, h2]
  · simp [RemoveBracketLines.clean_summary_file, RemoveBracketLines.filterLoop,
      hB, h3]

/-- C10 witness: the lines `"  Bash"` and `"  ⎿"` (whitespace then the
bare marker, no terminator) are removed by their variants. -/
theorem bare_marker_removed_witness :
    (CleanSummary.clean_summary_file ["  ".toList ++ bashTok]).cleaned_lines
      = []
    ∧ (RemoveBracketLines.clean_summary_file
        ["  ".toList ++ glyphTok]).cleaned_lines = [] :=
  bare_marker_removed "  ".toList (by decide)

end Worklink
